import Mathlib

/-!
Verification of the SPI temperature sensor conversion layer
(klippy/extras/spi_temperature.py).

Embedding conventions:
* Raw samples and ADC codes are Python arbitrary-precision integers,
  modelled as `Int`.  Python `a >> k` is floor division, written `a / n`
  with the numeral `n = 2^k` (Lean division on `Int` is Euclidean
  division, which is floor division for a positive divisor); Python
  `a & (2^k - 1)` is `a % n`; the truthiness test `a & (1 << k)` is
  `a / n % 2 = 1`.  These agree with CPython semantics on negative
  operands (infinite twos-complement).
* Fault bytes from the wire are unsigned, modelled as `Nat` with `&&&`.
* Temperatures are modelled as exact rationals `ℚ` for the linear chips:
  every multiplier in the source (0.25, 0.0078125) is a power of two, so
  the double-precision arithmetic performed by the source is exact and
  the idealization is faithful.  Python `int(x)` truncates toward zero
  (`pytrunc`).
* The MAX31865 temperature formula uses `math.sqrt`, modelled over `ℝ`
  with `Real.sqrt`.
* Exceptions are modelled with `Except String`; the string is the exact
  message text raised by the source.
-/

/-- Python `int(x)`: truncation toward zero. -/
def pytrunc (q : ℚ) : Int := if 0 ≤ q then ⌊q⌋ else -⌊-q⌋

/-! ### MAX31856 thermocouple -/

/-- MAX31856_MULT = 0.0078125 (exactly 1/128). -/
def MAX31856_MULT : ℚ := 0.0078125

/-- MAX31856.check_faults: first matching fault bit of the fault byte
raises; returns the raised message, or `none` when no fault bit is set. -/
def max31856_check_faults (fault : Nat) : Option String :=
  if fault &&& 0x80 ≠ 0 then some "Max31856: Cold Junction Range Fault"
  else if fault &&& 0x40 ≠ 0 then some "Max31856: Thermocouple Range Fault"
  else if fault &&& 0x20 ≠ 0 then some "Max31856: Cold Junction High Fault"
  else if fault &&& 0x10 ≠ 0 then some "Max31856: Cold Junction Low Fault"
  else if fault &&& 0x08 ≠ 0 then some "Max31856: Thermocouple High Fault"
  else if fault &&& 0x04 ≠ 0 then some "Max31856: Thermocouple Low Fault"
  else if fault &&& 0x02 ≠ 0 then some "Max31856: Over/Under Voltage Fault"
  else if fault &&& 0x01 ≠ 0 then some "Max31856: Thermocouple Open Fault"
  else none

/-- MAX31856.calc_temp: `adc >> 5` (ediv by 32 = 2^MAX31856_SCALE), sign
fix on bit 18 (`adc & 0x40000`, low mask `0x3FFFF` = emod by 262144),
then multiply by MAX31856_MULT.  Never raises. -/
def max31856_calc_temp (adc : Int) : ℚ :=
  if ((adc / 32) / 262144) % 2 = 1 then
    MAX31856_MULT * (((adc / 32) % 262144 + 1) * (-1) : Int)
  else
    MAX31856_MULT * (adc / 32 : Int)

/-- MAX31856.calc_adc: `int(temp / MULT + 0.5) << 5`. -/
def max31856_calc_adc (temp : ℚ) : Int :=
  pytrunc (temp / MAX31856_MULT + 0.5) * 32

/-- MAX31856.get_configs: CR0 (auto-convert, optional 50Hz filter), CR1
(tc type nibble or-ed with averaging code), fault mask register. -/
def max31856_get_configs (use_50Hz_filter : Bool) (tc_type average_count : Nat) :
    List Nat :=
  [0x80 + 0x00, (if use_50Hz_filter then 0x80 ||| 0x01 else 0x80),
   0x80 + 0x01, tc_type ||| average_count,
   0x80 + 0x02, 0x02 ||| 0x01]

/-! ### MAX31855 thermocouple -/

/-- MAX31855_MULT = 0.25. -/
def MAX31855_MULT : ℚ := 0.25

/-- MAX31855.check_faults is `pass`: the fault byte is ignored. -/
def max31855_check_faults (_fault : Nat) : Option String := none

/-- MAX31855.calc_temp: raises on fault bits 0/1/2 of the raw value,
then `adc >> 18` (ediv by 262144), sign fix on bit 13 (`adc & 0x2000`,
low mask `0x1FFF` = emod by 8192), then multiply by MAX31855_MULT. -/
def max31855_calc_temp (adc : Int) : Except String ℚ :=
  if adc % 2 = 1 then Except.error "MAX31855 : Open Circuit"
  else if (adc / 2) % 2 = 1 then Except.error "MAX31855 : Short to GND"
  else if (adc / 4) % 2 = 1 then Except.error "MAX31855 : Short to Vcc"
  else if ((adc / 262144) / 8192) % 2 = 1 then
    Except.ok (MAX31855_MULT * (((adc / 262144) % 8192 + 1) * (-1) : Int))
  else
    Except.ok (MAX31855_MULT * (adc / 262144 : Int))

/-- MAX31855.calc_adc: `int(temp / MULT + 0.5) << 18`. -/
def max31855_calc_adc (temp : ℚ) : Int :=
  pytrunc (temp / MAX31855_MULT + 0.5) * 262144

/-- MAX31855.get_configs returns no initialization bytes. -/
def max31855_get_configs : List Nat := []

/-! ### MAX6675 thermocouple -/

/-- MAX6675_MULT = 0.25. -/
def MAX6675_MULT : ℚ := 0.25

/-- MAX6675.check_faults is `pass`: the fault byte is ignored. -/
def max6675_check_faults (_fault : Nat) : Option String := none

/-- MAX6675.calc_temp: raises on fault bits 1/2 of the raw value, then
`adc >> 3` (ediv by 8), sign fix on bit 13, multiply by MAX6675_MULT. -/
def max6675_calc_temp (adc : Int) : Except String ℚ :=
  if (adc / 2) % 2 = 1 then Except.error "Max6675 : Device ID error"
  else if (adc / 4) % 2 = 1 then Except.error "Max6675 : Thermocouple Open Fault"
  else if ((adc / 8) / 8192) % 2 = 1 then
    Except.ok (MAX6675_MULT * (((adc / 8) % 8192 + 1) * (-1) : Int))
  else
    Except.ok (MAX6675_MULT * (adc / 8 : Int))

/-- MAX6675.calc_adc: `int(temp / MULT + 0.5) << 3`. -/
def max6675_calc_adc (temp : ℚ) : Int :=
  pytrunc (temp / MAX6675_MULT + 0.5) * 8

/-- MAX6675.get_configs returns no initialization bytes. -/
def max6675_get_configs : List Nat := []

/-! ### MAX31865 RTD sensor -/

/-- VAL_A = 0.00390830 (exact decimal). -/
def VAL_A : ℚ := 0.00390830

/-- VAL_B = 0.0000005775 (exact decimal). -/
def VAL_B : ℚ := 0.0000005775

/-- VAL_C = -0.00000000000418301; defined by the source but never used
by calc_temp or calc_adc. -/
def VAL_C : ℚ := -0.00000000000418301

/-- VAL_ADC_MAX = 32768.0 = 2^15. -/
def VAL_ADC_MAX : ℚ := 32768

/-- MAX31865.check_faults: first matching fault bit raises; the low two
bits share a catch-all message. -/
def max31865_check_faults (fault : Nat) : Option String :=
  if fault &&& 0x80 ≠ 0 then some "Max31865 RTD input is disconnected"
  else if fault &&& 0x40 ≠ 0 then some "Max31865 RTD input is shorted"
  else if fault &&& 0x20 ≠ 0 then
    some "Max31865 VREF- is greater than 0.85 * VBIAS, FORCE- open"
  else if fault &&& 0x10 ≠ 0 then
    some "Max31865 VREF- is less than 0.85 * VBIAS, FORCE- open"
  else if fault &&& 0x08 ≠ 0 then
    some "Max31865 VRTD- is less than 0.85 * VBIAS, FORCE- open"
  else if fault &&& 0x04 ≠ 0 then
    some "Max31865 Overvoltage or undervoltage fault"
  else if fault &&& 0x03 ≠ 0 then some "Max31865 Unspecified error"
  else none

/-- Numeric core of MAX31865.calc_temp, as a function of the post-shift
code: `R_rtd = reference_r * code / VAL_ADC_MAX`, then the positive
branch of the quadratic formula with constants VAL_A and VAL_B. -/
noncomputable def max31865_temp_of_code (nominal_r : Int) (reference_r : ℝ)
    (code : ℝ) : ℝ :=
  ((-1 : ℝ) * nominal_r * (VAL_A : ℝ) +
      Real.sqrt ((nominal_r : ℝ) * nominal_r * (VAL_A : ℝ) * (VAL_A : ℝ) -
        4 * nominal_r * (VAL_B : ℝ) *
          (nominal_r - reference_r * code / (VAL_ADC_MAX : ℝ)))) /
    (2 * nominal_r * (VAL_B : ℝ))

/-- MAX31865.calc_temp: `adc >> 1` removes the fault bit, then the
quadratic formula above. -/
noncomputable def max31865_calc_temp (nominal_r : Int) (reference_r : ℝ)
    (adc : Int) : ℝ :=
  max31865_temp_of_code nominal_r reference_r ((adc / 2 : Int) : ℝ)

/-- Exact (pre-rounding) ADC code computed by MAX31865.calc_adc: the
chain of assignments R_rtd = temp*(2*n*B); (R_rtd + n*A)^2;
-(R_rtd - n*n*A*A); / (4*n*B); -R_rtd + n; then * VAL_ADC_MAX / reference_r. -/
noncomputable def max31865_code_of_temp (nominal_r : Int) (reference_r : ℝ)
    (temp : ℝ) : ℝ :=
  ((-1 : ℝ) *
      (((-1 : ℝ) *
          ((temp * (2 * nominal_r * (VAL_B : ℝ)) + nominal_r * (VAL_A : ℝ)) ^ 2 -
            (nominal_r : ℝ) * nominal_r * (VAL_A : ℝ) * (VAL_A : ℝ))) /
        (4 * nominal_r * (VAL_B : ℝ))) +
    nominal_r) * (VAL_ADC_MAX : ℝ) / reference_r

/-- MAX31865.calc_adc over exact rationals: the same assignment chain,
then `int(code + 0.5) << 1` (re-adding the dropped fault bit as 0). -/
def max31865_calc_adc (nominal_r : Int) (reference_r : ℚ) (temp : ℚ) : Int :=
  pytrunc
    (((-1 : ℚ) *
        (((-1 : ℚ) *
            ((temp * (2 * nominal_r * VAL_B) + nominal_r * VAL_A) ^ 2 -
              (nominal_r : ℚ) * nominal_r * VAL_A * VAL_A)) /
          (4 * nominal_r * VAL_B)) +
      nominal_r) * VAL_ADC_MAX / reference_r + 0.5) * 2

/-- MAX31865.get_configs: one register write; bias, auto mode and fault
clear always set, optional 50Hz filter bit, optional 3-wire bit. -/
def max31865_get_configs (use_50Hz_filter : Bool) (num_wires : Int) : List Nat :=
  [0x80 + 0x00,
   (if num_wires = 3 then
      (if use_50Hz_filter then (0x80 ||| 0x40 ||| 0x02) ||| 0x01
       else 0x80 ||| 0x40 ||| 0x02) ||| 0x10
    else
      (if use_50Hz_filter then (0x80 ||| 0x40 ||| 0x02) ||| 0x01
       else 0x80 ||| 0x40 ||| 0x02))]

/-! ### SensorBase: session plumbing -/

/-- Session fields that survive between samples (SensorBase attributes
set by setup_minmax / build_config / setup_callback). -/
structure SessionState where
  min_sample_value : Int
  max_sample_value : Int
  has_callback : Bool

/-- SensorBase.setup_minmax: encode both endpoints with the chip
calc_adc, then store min and max by value. -/
def setup_minmax (calc_adc : ℚ → Int) (min_temp max_temp : ℚ) : Int × Int :=
  (min (calc_adc min_temp) (calc_adc max_temp),
   max (calc_adc min_temp) (calc_adc max_temp))

/-- SensorBase._handle_spi_response: decode the raw value (calc_temp may
raise), then check_faults on the fault byte (may raise), then invoke the
callback when one is registered.  The returned state is the session
state after handling (the source writes no field); the payload is
`some temp` when the callback was invoked with `temp`, `none` when no
callback is registered, and an error when an exception propagated. -/
def handle_spi_response {α : Type} (calc_temp : Int → Except String α)
    (check_faults : Nat → Option String) (st : SessionState)
    (value : Int) (fault : Nat) : SessionState × Except String (Option α) :=
  match calc_temp value with
  | Except.error e => (st, Except.error e)
  | Except.ok temp =>
    match check_faults fault with
    | some e => (st, Except.error e)
    | none => (st, Except.ok (if st.has_callback then some temp else none))

/-- MAX31856 decode as used by the session: calc_temp never raises. -/
def max31856_decode (value : Int) : Except String ℚ :=
  Except.ok (max31856_calc_temp value)

/-- MAX31865 decode as used by the session: calc_temp never raises. -/
noncomputable def max31865_decode (nominal_r : Int) (reference_r : ℝ)
    (value : Int) : Except String ℝ :=
  Except.ok (max31865_calc_temp nominal_r reference_r value)

/-- Closed set of supported chips; the MAX31865 variant carries its
configured nominal and reference resistances. -/
inductive ChipKind where
  | max31855 : ChipKind
  | max31856 : ChipKind
  | max6675 : ChipKind
  | max31865 : Int → ℚ → ChipKind

/-- Dispatch of calc_adc over the supported chips. -/
def ChipKind.calc_adc : ChipKind → ℚ → Int
  | .max31855 => max31855_calc_adc
  | .max31856 => max31856_calc_adc
  | .max6675 => max6675_calc_adc
  | .max31865 nominal_r reference_r => max31865_calc_adc nominal_r reference_r

/-- Sign-fix rule exactly as the specification words it, for comparison
with the source: if the sign-bit mask is set in the shifted value, the
magnitude is `-(((value & (mask-1)) + 1))`, else the shifted value.  For
a power-of-two mask, `value & mask != 0` is the parity of `value / mask`
and `value & (mask-1)` is `value mod mask`. -/
def spec_sign_fix (mask : Int) (value : Int) : Int :=
  if (value / mask) % 2 = 1 then -(value % mask + 1)
  else value

/-- MAX31865 temperature formula exactly as the specification words it:
`code = raw >> 1`, `R = reference_r * code / 32768.0`, then
`T = (-nominal_r*A + sqrt(nominal_r^2*A^2 - 4*nominal_r*B*(nominal_r - R)))
/ (2*nominal_r*B)`, with no use of the constant C. -/
noncomputable def max31865_calc_temp_spec (nominal_r : Int) (reference_r : ℝ)
    (raw : Int) : ℝ :=
  (-((nominal_r : ℝ) * (VAL_A : ℝ)) +
      Real.sqrt ((nominal_r : ℝ) ^ 2 * (VAL_A : ℝ) ^ 2 -
        4 * nominal_r * (VAL_B : ℝ) *
          (nominal_r - reference_r * ((raw / 2 : Int) : ℝ) / 32768))) /
    (2 * nominal_r * (VAL_B : ℝ))

/-! ### Theorems -/

/-- C5: SensorBase.setup_minmax encodes both endpoints with the chip
calc_adc and stores them reduced to (min, max) by value, so the stored
min_sample_value is at most the stored max_sample_value for every
supported chip and every pair of input temperatures, regardless of sign
or order. -/
theorem c5_setup_minmax_ordered (c : ChipKind) (mn mx : ℚ) :
    setup_minmax (ChipKind.calc_adc c) mn mx =
      (min (ChipKind.calc_adc c mn) (ChipKind.calc_adc c mx),
       max (ChipKind.calc_adc c mn) (ChipKind.calc_adc c mx)) ∧
    (setup_minmax (ChipKind.calc_adc c) mn mx).1 ≤
      (setup_minmax (ChipKind.calc_adc c) mn mx).2 :=
  ⟨rfl, min_le_max⟩

/-- C7 counterexample: the claim asserts that MAX31856 decode of raw
code 0x00080000 is -0.0078125, but 0x00080000 >> 5 = 0x4000 (sign bit
clear), so the source returns 128.0 instead. -/
theorem c7_example_counterexample :
    max31856_calc_temp 0x00080000 = 128 ∧ ((128 : ℚ) ≠ -0.0078125) := by
  constructor
  · norm_num [max31856_calc_temp, MAX31856_MULT]
  · norm_num

/-- C7 amended: the raw code whose 18-bit field has only the sign bit
set is 0x00800000 (= 0x40000 << 5), and MAX31856 decode of it is
-0.0078125. -/
theorem c7_example_amended :
    max31856_calc_temp 0x00800000 = -0.0078125 := by
  norm_num [max31856_calc_temp, MAX31856_MULT]

/-- C9: the MAX31856 builder writes as its first register value the
auto-convert default with bit0 set iff the 50Hz filter is configured,
and the MAX31865 builder writes exactly one register value equal to
bias (0x80) + auto mode (0x40) + fault clear (0x02), plus 0x01 iff the
50Hz filter is configured, plus 0x10 iff the wire count is 3, and no
other bits. -/
theorem c9_config_register_bits (use50 : Bool) (tc_type average_count : Nat)
    (num_wires : Int) :
    (max31856_get_configs use50 tc_type average_count).take 2 =
      [0x80, 0x80 + (if use50 then 1 else 0)] ∧
    max31865_get_configs use50 num_wires =
      [0x80, 0xC2 + (if use50 then 0x01 else 0) +
        (if num_wires = 3 then 0x10 else 0)] := by
  constructor
  · cases use50 <;> rfl
  · cases use50 <;> by_cases h : num_wires = 3 <;> simp [max31865_get_configs, h]

/-- Helper: MAX31855.calc_temp raises no fault when the three low fault
bits of the raw value are clear, regardless of the remaining bits. -/
theorem max31855_calc_temp_ok_of_clean (v : Int) (h0 : v % 2 = 0)
    (h1 : (v / 2) % 2 = 0) (h2 : (v / 4) % 2 = 0) :
    ∃ t, max31855_calc_temp v = Except.ok t := by
  unfold max31855_calc_temp
  rw [if_neg (by omega), if_neg (by omega), if_neg (by omega)]
  by_cases hc : ((v / 262144) / 8192) % 2 = 1
  · exact ⟨_, by rw [if_pos hc]⟩
  · exact ⟨_, by rw [if_neg hc]⟩

/-- Helper: MAX6675.calc_temp raises no fault when the two fault bits of
the raw value are clear, regardless of the remaining bits. -/
theorem max6675_calc_temp_ok_of_clean (v : Int)
    (h1 : (v / 2) % 2 = 0) (h2 : (v / 4) % 2 = 0) :
    ∃ t, max6675_calc_temp v = Except.ok t := by
  unfold max6675_calc_temp
  rw [if_neg (by omega), if_neg (by omega)]
  by_cases hc : ((v / 8) / 8192) % 2 = 1
  · exact ⟨_, by rw [if_pos hc]⟩
  · exact ⟨_, by rw [if_neg hc]⟩

/-- C2: for each twos-complement chip and every raw sample with no
fault bits set, decode returns the multiplier times the value given by
the sign-fix rule of the specification applied to the shifted value
(MAX31855: shift 18, mask 0x2000; MAX6675: shift 3, mask 0x2000;
MAX31856: shift 5, mask 0x40000). -/
theorem c2_sign_fix_rule (raw : Int) :
    max31856_calc_temp raw =
      MAX31856_MULT * (spec_sign_fix 262144 (raw / 32) : ℚ) ∧
    (raw % 2 = 0 → (raw / 2) % 2 = 0 →
      (raw / 4) % 2 = 0 →
      max31855_calc_temp raw =
        Except.ok (MAX31855_MULT * (spec_sign_fix 8192 (raw / 262144) : ℚ))) ∧
    ((raw / 2) % 2 = 0 → (raw / 4) % 2 = 0 →
      max6675_calc_temp raw =
        Except.ok (MAX6675_MULT * (spec_sign_fix 8192 (raw / 8) : ℚ))) := by
  refine ⟨?_, ?_, ?_⟩
  · unfold max31856_calc_temp spec_sign_fix
    by_cases hc : ((raw / 32) / 262144) % 2 = 1 <;> simp [hc]
  · intro h0 h1 h2
    unfold max31855_calc_temp spec_sign_fix
    rw [if_neg (by omega), if_neg (by omega), if_neg (by omega)]
    by_cases hc : ((raw / 262144) / 8192) % 2 = 1 <;> simp [hc]
  · intro h1 h2
    unfold max6675_calc_temp spec_sign_fix
    rw [if_neg (by omega), if_neg (by omega)]
    by_cases hc : ((raw / 8) / 8192) % 2 = 1 <;> simp [hc]

/-- Witness for C2 at the concrete clean raw sample 786432 = 3 << 18. -/
theorem c2_sign_fix_rule_witness :
    max31855_calc_temp 786432 =
      Except.ok (MAX31855_MULT * (spec_sign_fix 8192 (786432 / 262144) : ℚ)) :=
  (c2_sign_fix_rule 786432).2.1 (by decide) (by decide) (by decide)

/-- C6: fault detection depends only on fault bits, never on magnitude
bits: each single recognized fault bit with all magnitude bits zero
raises the fault message of that bit, and inputs with all fault bits clear
never raise, regardless of the magnitude bits. -/
theorem c6_fault_bits_independent :
    (max31856_check_faults 0x80 = some "Max31856: Cold Junction Range Fault") ∧
    (max31856_check_faults 0x40 = some "Max31856: Thermocouple Range Fault") ∧
    (max31856_check_faults 0x20 = some "Max31856: Cold Junction High Fault") ∧
    (max31856_check_faults 0x10 = some "Max31856: Cold Junction Low Fault") ∧
    (max31856_check_faults 0x08 = some "Max31856: Thermocouple High Fault") ∧
    (max31856_check_faults 0x04 = some "Max31856: Thermocouple Low Fault") ∧
    (max31856_check_faults 0x02 = some "Max31856: Over/Under Voltage Fault") ∧
    (max31856_check_faults 0x01 = some "Max31856: Thermocouple Open Fault") ∧
    (max31856_check_faults 0 = none) ∧
    (∀ (st : SessionState) (v : Int), ∃ r,
      handle_spi_response max31856_decode max31856_check_faults st v 0 =
        (st, Except.ok r)) ∧
    (max31865_check_faults 0x80 = some "Max31865 RTD input is disconnected") ∧
    (max31865_check_faults 0x40 = some "Max31865 RTD input is shorted") ∧
    (max31865_check_faults 0x20 =
      some "Max31865 VREF- is greater than 0.85 * VBIAS, FORCE- open") ∧
    (max31865_check_faults 0x10 =
      some "Max31865 VREF- is less than 0.85 * VBIAS, FORCE- open") ∧
    (max31865_check_faults 0x08 =
      some "Max31865 VRTD- is less than 0.85 * VBIAS, FORCE- open") ∧
    (max31865_check_faults 0x04 =
      some "Max31865 Overvoltage or undervoltage fault") ∧
    (max31865_check_faults 0x02 = some "Max31865 Unspecified error") ∧
    (max31865_check_faults 0x01 = some "Max31865 Unspecified error") ∧
    (max31865_check_faults 0 = none) ∧
    (max31855_calc_temp 1 = Except.error "MAX31855 : Open Circuit") ∧
    (max31855_calc_temp 2 = Except.error "MAX31855 : Short to GND") ∧
    (max31855_calc_temp 4 = Except.error "MAX31855 : Short to Vcc") ∧
    (∀ m : Nat, ∃ t, max31855_calc_temp (8 * (m : Int)) = Except.ok t) ∧
    (max6675_calc_temp 2 = Except.error "Max6675 : Device ID error") ∧
    (max6675_calc_temp 4 = Except.error "Max6675 : Thermocouple Open Fault") ∧
    (∀ m : Nat, ∃ t, max6675_calc_temp (8 * (m : Int)) = Except.ok t) ∧
    (∀ m : Nat, ∃ t, max6675_calc_temp (8 * (m : Int) + 1) = Except.ok t) := by
  refine ⟨rfl, rfl, rfl, rfl, rfl, rfl, rfl, rfl, rfl, ?_, rfl, rfl, rfl, rfl,
    rfl, rfl, rfl, rfl, rfl, rfl, rfl, rfl, ?_, rfl, rfl, ?_, ?_⟩
  · intro st v
    exact ⟨_, rfl⟩
  · intro m
    exact max31855_calc_temp_ok_of_clean _ (by omega) (by omega) (by omega)
  · intro m
    exact max6675_calc_temp_ok_of_clean _ (by omega) (by omega)
  · intro m
    exact max6675_calc_temp_ok_of_clean _ (by omega) (by omega)

/-- C10: MAX31855 and MAX6675 ignore the delivered fault field entirely
(check_faults is a no-op), and a clean raw value produces a normal
reading for any value of the fault field, including nonzero values. -/
theorem c10_fault_field_ignored :
    (∀ fault, max31855_check_faults fault = none) ∧
    (∀ fault, max6675_check_faults fault = none) ∧
    (∀ (st : SessionState) (v : Int) (fault : Nat),
      v % 2 = 0 → (v / 2) % 2 = 0 →
        (v / 4) % 2 = 0 →
        ∃ t, handle_spi_response max31855_calc_temp max31855_check_faults st v fault =
          (st, Except.ok t)) ∧
    (∀ (st : SessionState) (v : Int) (fault : Nat),
      (v / 2) % 2 = 0 → (v / 4) % 2 = 0 →
        ∃ t, handle_spi_response max6675_calc_temp max6675_check_faults st v fault =
          (st, Except.ok t)) := by
  refine ⟨fun _ => rfl, fun _ => rfl, ?_, ?_⟩
  · intro st v fault h0 h1 h2
    obtain ⟨t, ht⟩ := max31855_calc_temp_ok_of_clean v h0 h1 h2
    exact ⟨if st.has_callback then some t else none,
      by simp [handle_spi_response, ht, max31855_check_faults]⟩
  · intro st v fault h1 h2
    obtain ⟨t, ht⟩ := max6675_calc_temp_ok_of_clean v h1 h2
    exact ⟨if st.has_callback then some t else none,
      by simp [handle_spi_response, ht, max6675_check_faults]⟩

/-- Witness for C10: a clean MAX31855 sample (raw 262144 = 1 << 18)
with the fault field at 255 still yields a normal reading. -/
theorem c10_fault_field_ignored_witness :
    ∃ t, handle_spi_response max31855_calc_temp max31855_check_faults
        ⟨0, 0, true⟩ 262144 255 = (⟨0, 0, true⟩, Except.ok t) :=
  c10_fault_field_ignored.2.2.1 ⟨0, 0, true⟩ 262144 255 (by decide) (by decide)
    (by decide)

/-- C4: on every delivered sample on which a recognized fault condition
holds, sample handling returns the typed error carrying the chip fault
message, the callback payload is absent, and the session state is
returned unchanged. -/
theorem c4_fault_no_callback (st : SessionState) (v : Int) (fault : Nat) :
    (∀ e, max31856_check_faults fault = some e →
      handle_spi_response max31856_decode max31856_check_faults st v fault =
        (st, Except.error e)) ∧
    (∀ (nominal_r : Int) (reference_r : ℝ) (e : String),
      max31865_check_faults fault = some e →
      handle_spi_response (max31865_decode nominal_r reference_r)
          max31865_check_faults st v fault = (st, Except.error e)) ∧
    (∀ e, max31855_calc_temp v = Except.error e →
      handle_spi_response max31855_calc_temp max31855_check_faults st v fault =
        (st, Except.error e)) ∧
    (∀ e, max6675_calc_temp v = Except.error e →
      handle_spi_response max6675_calc_temp max6675_check_faults st v fault =
        (st, Except.error e)) := by
  refine ⟨?_, ?_, ?_, ?_⟩
  · intro e he
    simp [handle_spi_response, max31856_decode, he]
  · intro nominal_r reference_r e he
    simp [handle_spi_response, max31865_decode, he]
  · intro e he
    simp [handle_spi_response, he]
  · intro e he
    simp [handle_spi_response, he]

/-- Witness for C4: a MAX31856 sample whose fault byte has the cold
junction range bit set is rejected with that fixed message and the
state is unchanged. -/
theorem c4_fault_no_callback_witness :
    handle_spi_response max31856_decode max31856_check_faults ⟨0, 0, true⟩ 0 0x80 =
      (⟨0, 0, true⟩, Except.error "Max31856: Cold Junction Range Fault") :=
  (c4_fault_no_callback ⟨0, 0, true⟩ 0 0x80).1 _ rfl

/-- C3: MAX31865.calc_temp computes exactly the formula stated by the
specification: code = raw >> 1, R = reference_r*code/32768.0, and
T = (-nominal_r*A + sqrt(nominal_r^2*A^2 - 4*nominal_r*B*(nominal_r - R)))
/ (2*nominal_r*B), taking only the positive sqrt branch; the constant C
does not occur in the formula. -/
theorem c3_max31865_formula (nominal_r : Int) (reference_r : ℝ) (adc : Int) :
    max31865_calc_temp nominal_r reference_r adc =
      max31865_calc_temp_spec nominal_r reference_r adc := by
  unfold max31865_calc_temp max31865_calc_temp_spec max31865_temp_of_code
  have h32 : ((VAL_ADC_MAX : ℚ) : ℝ) = 32768 := by norm_num [VAL_ADC_MAX]
  rw [h32]
  have harg : (nominal_r : ℝ) * nominal_r * (VAL_A : ℝ) * (VAL_A : ℝ) =
      (nominal_r : ℝ) ^ 2 * (VAL_A : ℝ) ^ 2 := by ring
  rw [harg]
  ring

/-- C8 counterexample: the quantization step int(x + 0.5) does not
round half away from zero on negative pre-shift values.  At x = -1,
which is the pre-shift value of MAX31855.calc_adc at temperature -0.25,
truncation toward zero yields 0, while round-half-away-from-zero,
sign(x) * floor(of absolute x + 0.5), yields -1. -/
theorem c8_rounding_counterexample :
    max31855_calc_adc (-(1/4)) = 0 ∧
    pytrunc ((-1 : ℚ) + 0.5) ≠ Int.sign (-1) * ⌊|(-1 : ℚ)| + 0.5⌋ := by
  constructor
  · norm_num [max31855_calc_adc, MAX31855_MULT, pytrunc]
  · have h1 : pytrunc ((-1 : ℚ) + 0.5) = 0 := by norm_num [pytrunc]
    have h2 : (⌊|(-1 : ℚ)| + 0.5⌋ : Int) = 1 := by norm_num
    rw [h1, h2]
    decide

/-- C8 amended: for nonnegative pre-shift values x the quantization
step int(x + 0.5) rounds half away from zero, equaling the floor of
the absolute value plus one half; for negative x it instead truncates
x + 0.5 toward zero. -/
theorem c8_rounding_amended (x : ℚ) (hx : 0 ≤ x) :
    pytrunc (x + 0.5) = ⌊|x| + 0.5⌋ := by
  rw [abs_of_nonneg hx]
  unfold pytrunc
  rw [if_pos (by norm_num; linarith)]

/-- Witness for C8 at the pre-shift value 3/2. -/
theorem c8_rounding_amended_witness :
    pytrunc ((3/2 : ℚ) + 0.5) = ⌊|(3/2 : ℚ)| + 0.5⌋ :=
  c8_rounding_amended (3/2) (by norm_num)

/-- Helper: pytrunc agrees with floor on nonnegative arguments. -/
theorem pytrunc_nonneg (q : ℚ) (h : 0 ≤ q) : pytrunc q = ⌊q⌋ := by
  unfold pytrunc
  rw [if_pos h]

/-- Helper: MAX31855.calc_temp on a shifted-in code n with 0 <= n < 8192
returns the multiplier times n. -/
theorem max31855_calc_temp_of_code (n : Int) (h0 : 0 ≤ n) (h1 : n < 8192) :
    max31855_calc_temp (n * 262144) = Except.ok (MAX31855_MULT * (n : ℚ)) := by
  unfold max31855_calc_temp
  rw [if_neg (by omega), if_neg (by omega), if_neg (by omega), if_neg (by omega)]
  have he : n * 262144 / 262144 = n := by omega
  rw [he]

/-- Helper: MAX6675.calc_temp on a shifted-in code n with 0 <= n < 8192
returns the multiplier times n. -/
theorem max6675_calc_temp_of_code (n : Int) (h0 : 0 ≤ n) (h1 : n < 8192) :
    max6675_calc_temp (n * 8) = Except.ok (MAX6675_MULT * (n : ℚ)) := by
  unfold max6675_calc_temp
  rw [if_neg (by omega), if_neg (by omega), if_neg (by omega)]
  have he : n * 8 / 8 = n := by omega
  rw [he]

/-- Helper: MAX31856.calc_temp on a shifted-in code n with
0 <= n < 262144 returns the multiplier times n. -/
theorem max31856_calc_temp_of_code (n : Int) (h0 : 0 ≤ n) (h1 : n < 262144) :
    max31856_calc_temp (n * 32) = MAX31856_MULT * (n : ℚ) := by
  unfold max31856_calc_temp
  rw [if_neg (by omega)]
  have he : n * 32 / 32 = n := by omega
  rw [he]

/-- Helper: value of the MAX31865 quadratic once the discriminant is
recognized as a square of a nonnegative quantity. -/
theorem max31865_temp_of_code_eval (nominal_r : Int) (reference_r : ℝ)
    (code D : ℝ) (hD : 0 ≤ D)
    (harg : (nominal_r : ℝ) * nominal_r * (VAL_A : ℝ) * (VAL_A : ℝ) -
        4 * nominal_r * (VAL_B : ℝ) *
          (nominal_r - reference_r * code / (VAL_ADC_MAX : ℝ)) = D ^ 2) :
    max31865_temp_of_code nominal_r reference_r code =
      ((-1 : ℝ) * nominal_r * (VAL_A : ℝ) + D) / (2 * nominal_r * (VAL_B : ℝ)) := by
  unfold max31865_temp_of_code
  rw [harg, Real.sqrt_sq hD]

/-- Helper: with the exact (unrounded) ADC code, the MAX31865 decode
formula inverts the encode chain exactly for nonnegative temperatures,
positive nominal resistance and nonzero reference resistance. -/
theorem max31865_roundtrip_exact (nominal_r : Int) (reference_r : ℝ) (T : ℝ)
    (hnr : 0 < nominal_r) (hrr : reference_r ≠ 0) (hT : 0 ≤ T) :
    max31865_temp_of_code nominal_r reference_r
      (max31865_code_of_temp nominal_r reference_r T) = T := by
  have hN : (0:ℝ) < (nominal_r : ℝ) := by exact_mod_cast hnr
  have hN0 : (nominal_r : ℝ) ≠ 0 := ne_of_gt hN
  have hA : (0:ℝ) < (VAL_A : ℝ) := by norm_num [VAL_A]
  have hB : (0:ℝ) < (VAL_B : ℝ) := by norm_num [VAL_B]
  have hB0 : (VAL_B : ℝ) ≠ 0 := ne_of_gt hB
  have hM32 : ((VAL_ADC_MAX : ℚ) : ℝ) = 32768 := by norm_num [VAL_ADC_MAX]
  have hM0 : ((VAL_ADC_MAX : ℚ) : ℝ) ≠ 0 := by
    rw [hM32]
    norm_num
  have h2NB : (0:ℝ) < 2 * (nominal_r : ℝ) * (VAL_B : ℝ) :=
    mul_pos (mul_pos (by norm_num) hN) hB
  have hpos : 0 ≤ T * (2 * (nominal_r : ℝ) * (VAL_B : ℝ)) +
      (nominal_r : ℝ) * (VAL_A : ℝ) := by
    have := mul_nonneg hT h2NB.le
    nlinarith
  rw [max31865_temp_of_code_eval nominal_r reference_r _
    (T * (2 * (nominal_r : ℝ) * (VAL_B : ℝ)) + (nominal_r : ℝ) * (VAL_A : ℝ))
    hpos ?harg]
  · field_simp
  case harg =>
    unfold max31865_code_of_temp
    field_simp
    ring

/-- C1 counterexample: the round trip fails for negative temperatures.
At T = -0.5 the MAX31855 encode gives code -1 (raw -262144), whose
decode sign-fixes to -8192 and returns -2048.0, which is not within one
multiplier step (0.25) of -0.5. -/
theorem c1_roundtrip_counterexample :
    max31855_calc_temp (max31855_calc_adc (-(1/2))) = Except.ok (-2048) ∧
    ¬(|(-2048 : ℚ) - (-(1/2))| ≤ MAX31855_MULT) := by
  constructor
  · norm_num [max31855_calc_adc, max31855_calc_temp, pytrunc, MAX31855_MULT]
  · intro hle
    rw [show ((-2048 : ℚ) - (-(1/2))) = -(4095/2) by norm_num, abs_neg,
      abs_of_nonneg (by norm_num : (0:ℚ) ≤ 4095/2)] at hle
    norm_num [MAX31855_MULT] at hle

/-- C1 amended: the quantized round trip decode(encode(T)) is within
one multiplier step of T for the chips that have a multiplier, for
nonnegative T below the positive sign-bit threshold (2047.875 for
MAX31855 and MAX6675, 524287/256 for MAX31856); for negative T the
round trip fails.  For the MAX31865, whose transfer is not linear, the
decode formula applied to the exact unrounded code recovers T exactly
for nonnegative T, positive nominal resistance and nonzero reference
resistance. -/
theorem c1_roundtrip_amended (T : ℚ) :
    (0 ≤ T → T < 16383/8 →
      max31855_calc_temp (max31855_calc_adc T) =
        Except.ok (MAX31855_MULT * (pytrunc (T / MAX31855_MULT + 0.5) : ℚ)) ∧
      |MAX31855_MULT * (pytrunc (T / MAX31855_MULT + 0.5) : ℚ) - T| ≤
        MAX31855_MULT) ∧
    (0 ≤ T → T < 16383/8 →
      max6675_calc_temp (max6675_calc_adc T) =
        Except.ok (MAX6675_MULT * (pytrunc (T / MAX6675_MULT + 0.5) : ℚ)) ∧
      |MAX6675_MULT * (pytrunc (T / MAX6675_MULT + 0.5) : ℚ) - T| ≤
        MAX6675_MULT) ∧
    (0 ≤ T → T < 524287/256 →
      max31856_calc_temp (max31856_calc_adc T) =
        MAX31856_MULT * (pytrunc (T / MAX31856_MULT + 0.5) : ℚ) ∧
      |MAX31856_MULT * (pytrunc (T / MAX31856_MULT + 0.5) : ℚ) - T| ≤
        MAX31856_MULT) ∧
    (∀ (nominal_r : Int) (reference_r : ℝ),
      0 < nominal_r → reference_r ≠ 0 → 0 ≤ T →
      max31865_temp_of_code nominal_r reference_r
        (max31865_code_of_temp nominal_r reference_r (T : ℝ)) = (T : ℝ)) := by
  refine ⟨?_, ?_, ?_, ?_⟩
  · intro h0 hlt
    have hdiv : T / MAX31855_MULT + 0.5 = 4 * T + 1/2 := by
      norm_num [MAX31855_MULT, div_eq_mul_inv]
      ring
    have hq0 : (0:ℚ) ≤ T / MAX31855_MULT + 0.5 := by
      rw [hdiv]
      linarith
    have hpt : pytrunc (T / MAX31855_MULT + 0.5) = ⌊4 * T + 1/2⌋ := by
      rw [pytrunc_nonneg _ hq0, hdiv]
    have hn0 : 0 ≤ ⌊4 * T + 1/2⌋ := Int.floor_nonneg.mpr (by linarith)
    have hn1 : ⌊4 * T + 1/2⌋ < 8192 := by
      rw [Int.floor_lt]
      push_cast
      linarith
    have hfl : (⌊4 * T + 1/2⌋ : ℚ) ≤ 4 * T + 1/2 := Int.floor_le _
    have hfg : 4 * T + 1/2 - 1 < (⌊4 * T + 1/2⌋ : ℚ) := Int.sub_one_lt_floor _
    have hM : MAX31855_MULT = 1/4 := by norm_num [MAX31855_MULT]
    constructor
    · unfold max31855_calc_adc
      rw [hpt, max31855_calc_temp_of_code _ hn0 hn1]
    · rw [hpt, hM, abs_le]
      constructor <;> linarith
  · intro h0 hlt
    have hdiv : T / MAX6675_MULT + 0.5 = 4 * T + 1/2 := by
      norm_num [MAX6675_MULT, div_eq_mul_inv]
      ring
    have hq0 : (0:ℚ) ≤ T / MAX6675_MULT + 0.5 := by
      rw [hdiv]
      linarith
    have hpt : pytrunc (T / MAX6675_MULT + 0.5) = ⌊4 * T + 1/2⌋ := by
      rw [pytrunc_nonneg _ hq0, hdiv]
    have hn0 : 0 ≤ ⌊4 * T + 1/2⌋ := Int.floor_nonneg.mpr (by linarith)
    have hn1 : ⌊4 * T + 1/2⌋ < 8192 := by
      rw [Int.floor_lt]
      push_cast
      linarith
    have hfl : (⌊4 * T + 1/2⌋ : ℚ) ≤ 4 * T + 1/2 := Int.floor_le _
    have hfg : 4 * T + 1/2 - 1 < (⌊4 * T + 1/2⌋ : ℚ) := Int.sub_one_lt_floor _
    have hM : MAX6675_MULT = 1/4 := by norm_num [MAX6675_MULT]
    constructor
    · unfold max6675_calc_adc
      rw [hpt, max6675_calc_temp_of_code _ hn0 hn1]
    · rw [hpt, hM, abs_le]
      constructor <;> linarith
  · intro h0 hlt
    have hdiv : T / MAX31856_MULT + 0.5 = 128 * T + 1/2 := by
      norm_num [MAX31856_MULT, div_eq_mul_inv]
      ring
    have hq0 : (0:ℚ) ≤ T / MAX31856_MULT + 0.5 := by
      rw [hdiv]
      linarith
    have hpt : pytrunc (T / MAX31856_MULT + 0.5) = ⌊128 * T + 1/2⌋ := by
      rw [pytrunc_nonneg _ hq0, hdiv]
    have hn0 : 0 ≤ ⌊128 * T + 1/2⌋ := Int.floor_nonneg.mpr (by linarith)
    have hn1 : ⌊128 * T + 1/2⌋ < 262144 := by
      rw [Int.floor_lt]
      push_cast
      linarith
    have hfl : (⌊128 * T + 1/2⌋ : ℚ) ≤ 128 * T + 1/2 := Int.floor_le _
    have hfg : 128 * T + 1/2 - 1 < (⌊128 * T + 1/2⌋ : ℚ) := Int.sub_one_lt_floor _
    have hM : MAX31856_MULT = 1/128 := by norm_num [MAX31856_MULT]
    constructor
    · unfold max31856_calc_adc
      rw [hpt, max31856_calc_temp_of_code _ hn0 hn1]
    · rw [hpt, hM, abs_le]
      constructor <;> linarith
  · intro nominal_r reference_r hnr hrr hT
    exact max31865_roundtrip_exact nominal_r reference_r (T : ℝ) hnr hrr
      (by exact_mod_cast hT)

/-- Witness for C1 at T = 100 on the MAX31856: the round trip returns
exactly 100 up to the quantization bound. -/
theorem c1_roundtrip_amended_witness :
    max31856_calc_temp (max31856_calc_adc 100) =
      MAX31856_MULT * (pytrunc ((100 : ℚ) / MAX31856_MULT + 0.5) : ℚ) ∧
    |MAX31856_MULT * (pytrunc ((100 : ℚ) / MAX31856_MULT + 0.5) : ℚ) - 100| ≤
      MAX31856_MULT :=
  (c1_roundtrip_amended 100).2.2.1 (by norm_num) (by norm_num)
